import Mathlib

/-!
Shallow embedding of the debugger-configuration resolution module
(`src/debugger.ts`) of the vscode-cmake-tools repository.

External collaborators are modelled as oracles gathered in a `World`:
the process probe (`checkDebugger`, i.e. `proc.execute(path, ['--version'])`
with success iff exit code 0), the filesystem existence check
(`fs.exists`), the optional cpptools companion-extension installation
root (`vscode.extensions.getExtension('ms-vscode.cpptools')`), and the
`process.platform === 'win32'` flag.  Node's `path` module is modelled
with its POSIX semantics (`path.posix`); dot-segment normalization of
`path.join` is not modelled since no input in scope contains dot
segments.  Localized messages are represented by their message keys.

The two JavaScript regular expressions of the source,
`/(clang[\+]{0,2})+(?!-cl)/gi` and `/([cg]\+\+|g?cc)(?=[^\/\\]*$)/gi`,
are modelled by executable matchers that reproduce the backtracking
behaviour of the JS engine on these patterns, and a global
leftmost-match replacement driver.

Effects are made explicit: every resolution function returns, besides
its `Except`-typed result, the ordered list of paths that were probed
and the list of warnings (by message key) that were emitted.
-/

namespace CMakeDbg

/-- Case-sensitive test that the second list begins with the first. -/
def listStartsWith : List Char → List Char → Bool
  | [], _ => true
  | _ :: _, [] => false
  | p :: ps, c :: cs => if p = c then listStartsWith ps cs else false

/-- Case-sensitive substring containment test over character lists. -/
def listContainsPat (pat : List Char) : List Char → Bool
  | [] => listStartsWith pat []
  | c :: cs => listStartsWith pat (c :: cs) || listContainsPat pat cs

/-- Model of `s.search(new RegExp(pat)) !== -1` for the plain-text patterns
the source uses (`'lldb-mi'`, `'gdb'`, `'lldb'`): substring containment,
case-sensitive. -/
def strContains (s pat : String) : Bool :=
  listContainsPat pat.toList s.toList

/-- Model of JavaScript `String.prototype.endsWith` (case-sensitive). -/
def strEndsWith (s suf : String) : Bool :=
  listStartsWith suf.toList.reverse s.toList.reverse

/-- Case-insensitive test that `cs` begins with the (lowercase) pattern. -/
def matchesCI : List Char → List Char → Bool
  | [], _ => true
  | _ :: _, [] => false
  | p :: ps, c :: cs => if c.toLower = p then matchesCI ps cs else false

/-- Model of `path.posix.isAbsolute`. -/
def isAbsolutePath (s : String) : Bool :=
  match s.toList with
  | '/' :: _ => true
  | _ => false

/-- Model of Node's `path.posix.dirname`. -/
def dirname (s : String) : String :=
  match s.toList with
  | [] => "."
  | c0 :: tl =>
    let hasRoot := c0 = '/'
    let r := (tl.reverse.dropWhile (fun c => c = '/')).dropWhile (fun c => c ≠ '/')
    match r with
    | [] => if hasRoot then "/" else "."
    | _ :: rest =>
      if hasRoot ∧ rest = [] then "//"
      else ⟨c0 :: rest.reverse⟩

/-- Model of Node's `path.posix.join` on two segments (dot-segment
normalization not modelled; unused on the inputs in scope). -/
def pjoin (a b : String) : String :=
  if a = "" then b
  else if b = "" then a
  else if strEndsWith a "/" then a ++ b
  else a ++ "/" ++ b

/-- One greedy iteration of the group `clang[\+]{0,2}` (case-insensitive):
`clang` followed by up to two `+` characters.  Returns the consumed
length and the remaining characters. -/
def clangPlusLen (cs : List Char) : Option (Nat × List Char) :=
  if matchesCI ['c', 'l', 'a', 'n', 'g'] cs then
    match cs.drop 5 with
    | '+' :: '+' :: rest => some (7, rest)
    | '+' :: rest => some (6, rest)
    | rest => some (5, rest)
  else none

/-- Lengths of the successive greedy iterations of `(clang[\+]{0,2})+`
starting at the head of the list. -/
def clangIters : Nat → List Char → List Nat
  | 0, _ => []
  | fuel + 1, cs =>
    match clangPlusLen cs with
    | none => []
    | some (n, rest) => n :: clangIters fuel rest

/-- Length of the match of `/(clang[\+]{0,2})+(?!-cl)/i` anchored at the
head of `cs`, if any, reproducing the JS engine's backtracking: on a
failing `(?!-cl)` lookahead the last `+` character is given back when the
last iteration consumed one, else the whole last iteration is dropped. -/
def clangMatchLen (cs : List Char) : Option Nat :=
  let ls := clangIters (cs.length + 1) cs
  match ls with
  | [] => none
  | _ :: _ =>
    let total := ls.sum
    if matchesCI ['-', 'c', 'l'] (cs.drop total) then
      if 5 < ls.getLastD 0 then some (total - 1)
      else if 2 ≤ ls.length then some (total - 5)
      else none
    else some total

/-- Lookahead `[^\/\\]*$`: no path separator among the remaining characters. -/
def noSlashOnly : List Char → Bool
  | [] => true
  | c :: cs => if c = '/' ∨ c = '\\' then false else noSlashOnly cs

/-- Length matched by the alternation `[cg]\+\+|g?cc` (case-insensitive)
anchored at the head of `cs`, if any.  The alternatives are mutually
exclusive at any position, so alternation order does not matter. -/
def gccAltLen (cs : List Char) : Option Nat :=
  match cs with
  | a :: '+' :: '+' :: _ =>
    if a.toLower = 'c' ∨ a.toLower = 'g' then some 3 else none
  | _ =>
    if matchesCI ['g', 'c', 'c'] cs then some 3
    else if matchesCI ['c', 'c'] cs then some 2
    else none

/-- Length of the match of `/([cg]\+\+|g?cc)(?=[^\/\\]*$)/i` anchored at
the head of `cs`, if any. -/
def gccMatchLen (cs : List Char) : Option Nat :=
  match gccAltLen cs with
  | some n => if noSlashOnly (cs.drop n) then some n else none
  | none => none

/-- Global leftmost-match replacement driver for an anchored matcher,
as in `String.prototype.replace` with the `g` flag. -/
def regexReplaceAux (mLen : List Char → Option Nat) (repl : List Char) :
    Nat → List Char → List Char
  | 0, cs => cs
  | _ + 1, [] => []
  | fuel + 1, c :: cs =>
    match mLen (c :: cs) with
    | some n => repl ++ regexReplaceAux mLen repl fuel ((c :: cs).drop n)
    | none => c :: regexReplaceAux mLen repl fuel cs

/-- Model of `compilerPath.replace(/(clang[\+]{0,2})+(?!-cl)/gi, repl)`. -/
def replaceClang (repl : String) (s : String) : String :=
  ⟨regexReplaceAux clangMatchLen repl.toList (s.toList.length + 1) s.toList⟩

/-- Model of `compilerPath.replace(/([cg]\+\+|g?cc)(?=[^\/\\]*$)/gi, repl)`. -/
def replaceGcc (repl : String) (s : String) : String :=
  ⟨regexReplaceAux gccMatchLen repl.toList (s.toList.length + 1) s.toList⟩

/-- Model of `ExecutableTarget` of `@cmt/api`: the fields the module reads. -/
structure ExecutableTarget where
  name : String
  path : String
  deriving DecidableEq

/-- The `MIModes` enumeration of the source. -/
inductive MIModes where
  | lldb
  | gdb
  deriving DecidableEq

/-- The string value of an `MIModes` member. -/
def miModeStr : MIModes → String
  | MIModes.lldb => "lldb"
  | MIModes.gdb => "gdb"

/-- Model of the `SetupCommand` interface of the source. -/
structure SetupCommand where
  text : Option String
  description : Option String
  ignoreFailures : Option Bool
  deriving DecidableEq

/-- Model of `VSCodeDebugConfiguration`: the fields the module ever sets.  Fields
that a given builder does not set are `none`. -/
structure VSCodeDebugConfiguration where
  type : String
  name : String
  request : String
  cwd : String
  args : List String
  program : String
  MIMode : Option MIModes
  miDebuggerPath : Option String
  setupCommands : Option (List SetupCommand)
  deriving DecidableEq

/-- The external collaborators of one resolution call, as oracles. -/
structure World where
  probe : String → Bool
  fsExists : String → Bool
  cpptoolsExtPath : Option String
  win32 : Bool

/-- Result of a resolution call together with its observable effects:
the ordered list of probed paths and the emitted warnings (by key). -/
structure Outcome where
  result : Except String (Option VSCodeDebugConfiguration)
  probed : List String
  warnings : List String

/-- Model of `checkDebugger`: probe the path with `--version`, success
iff the exit code is 0.  The probe outcome is supplied by the `World`. -/
def checkDebugger (w : World) (debuggerPath : String) : Bool :=
  w.probe debuggerPath

/-- The setup command list the GDB builder attaches. -/
def gdbSetupCommands : List SetupCommand :=
  [{ text := some "-enable-pretty-printing",
     description := some "enable.pretty.printing",
     ignoreFailures := some true }]

/-- The configuration object literal returned by `createGDBDebugConfiguration`. -/
def gdbLaunchConfig (debuggerPath : String) (t : ExecutableTarget) :
    VSCodeDebugConfiguration :=
  { type := "cppdbg"
    name := "Debug " ++ t.name
    request := "launch"
    cwd := dirname t.path
    args := []
    program := t.path
    MIMode := some MIModes.gdb
    miDebuggerPath := some debuggerPath
    setupCommands := some gdbSetupCommands }

/-- The configuration object literal returned by `createLLDBDebugConfiguration`. -/
def lldbLaunchConfig (debuggerPath : String) (t : ExecutableTarget) :
    VSCodeDebugConfiguration :=
  { type := "cppdbg"
    name := "Debug " ++ t.name
    request := "launch"
    cwd := dirname t.path
    args := []
    program := t.path
    MIMode := some MIModes.lldb
    miDebuggerPath := some debuggerPath
    setupCommands := none }

/-- Model of `createMSVCDebugConfiguration` of the source: pure data assembly. -/
def createMSVCDebugConfiguration (t : ExecutableTarget) : VSCodeDebugConfiguration :=
  { type := "cppvsdbg"
    name := "Debug " ++ t.name
    request := "launch"
    cwd := dirname t.path
    args := []
    program := t.path
    MIMode := none
    miDebuggerPath := none
    setupCommands := none }

/-- Model of `createGDBDebugConfiguration` of the source: probe the given path,
fall back to the bare command `gdb`, raise `gdb.not.found` when both
probes fail.  Second component: the probed paths, in order. -/
def createGDBDebugConfiguration (w : World) (debuggerPath : String)
    (t : ExecutableTarget) : Except String VSCodeDebugConfiguration × List String :=
  if checkDebugger w debuggerPath then
    (Except.ok (gdbLaunchConfig debuggerPath t), [debuggerPath])
  else if checkDebugger w "gdb" then
    (Except.ok (gdbLaunchConfig "gdb" t), [debuggerPath, "gdb"])
  else
    (Except.error "gdb.not.found", [debuggerPath, "gdb"])

/-- Model of `createLLDBDebugConfiguration` of the source: probe the given path,
raise (with the same `gdb.not.found` message key) when it fails; there
is no bare-command fallback. -/
def createLLDBDebugConfiguration (w : World) (debuggerPath : String)
    (t : ExecutableTarget) : Except String VSCodeDebugConfiguration × List String :=
  if checkDebugger w debuggerPath then
    (Except.ok (lldbLaunchConfig debuggerPath t), [debuggerPath])
  else
    (Except.error "gdb.not.found", [debuggerPath])

/-- Model of `DEBUG_GEN[m].createConfig` of the source. -/
def createConfigFor (w : World) (m : MIModes) (p : String) (t : ExecutableTarget) :
    Except String VSCodeDebugConfiguration × List String :=
  match m with
  | MIModes.gdb => createGDBDebugConfiguration w p t
  | MIModes.lldb => createLLDBDebugConfiguration w p t

/-- The pure configuration literal `DEBUG_GEN[m].createConfig` builds when
its probe of the given path succeeds. -/
def launchConfigFor (m : MIModes) (p : String) (t : ExecutableTarget) :
    VSCodeDebugConfiguration :=
  match m with
  | MIModes.gdb => gdbLaunchConfig p t
  | MIModes.lldb => lldbLaunchConfig p t

/-- Lift a builder result and the resolver's own earlier probes into an
`Outcome`. -/
def outcomeOf (r : Except String VSCodeDebugConfiguration × List String)
    (pre : List String) : Outcome :=
  { result := r.1.map (fun c => some c), probed := pre ++ r.2, warnings := [] }

/-- Loop body of `searchForCompilerPathInCache` over the language list. -/
def searchCompilerAux (cache : String → Option String) : List String → Option String
  | [] => none
  | lang :: rest =>
    match cache ("CMAKE_" ++ lang ++ "_COMPILER") with
    | none => searchCompilerAux cache rest
    | some v => some v

/-- Model of `searchForCompilerPathInCache` of the source: probe the `CXX`, `C`,
`CUDA` compiler entries in that order. -/
def searchForCompilerPathInCache (cache : String → Option String) : Option String :=
  searchCompilerAux cache ["CXX", "C", "CUDA"]

/-- The cpptools companion lldb-mi install location, when the companion
extension is present: `join(extensionPath, 'debugAdapters', 'lldb-mi',
'bin', 'lldb-mi')`. -/
def cpptoolsDebuggerPath (w : World) : Option String :=
  w.cpptoolsExtPath.map
    (fun e => pjoin (pjoin (pjoin (pjoin e "debugAdapters") "lldb-mi") "bin") "lldb-mi")

/-- The generic fallback derivation: substitute the gcc-style compiler
name by the preferred debugger name; if the substituted path is absolute
and does not exist, join the compiler's directory with the debugger name
instead, appending `.exe` on a win32 host. -/
def genericFallbackPath (w : World) (compilerPath : String) (m : MIModes) : String :=
  let p0 := replaceGcc (miModeStr m) compilerPath
  if isAbsolutePath p0 = true ∧ w.fsExists p0 = false then
    let j := pjoin (dirname compilerPath) (miModeStr m)
    if w.win32 then j ++ ".exe" else j
  else p0

/-- Final stage of the resolver: the generic fallback candidate.  If its
path mentions the preferred debugger name it is handed to the builder
without a prior probe; otherwise warn and return no result. -/
def stepFallback (w : World) (compilerPath : String) (t : ExecutableTarget)
    (debuggerName : MIModes) (pre : List String) : Outcome :=
  let fb := genericFallbackPath w compilerPath debuggerName
  if strContains fb (miModeStr debuggerName) = true then
    outcomeOf (createConfigFor w debuggerName fb t) pre
  else
    { result := Except.ok none, probed := pre,
      warnings := ["unable.to.determine.debugger.for.compiler"] }

/-- Step 3 of the resolver: `lldb` substituted into the compiler path. -/
def step3 (w : World) (compilerPath : String) (t : ExecutableTarget)
    (debuggerName : MIModes) (modeOverride : Option MIModes) (pre : List String) :
    Outcome :=
  let p := replaceClang "lldb" compilerPath
  if modeOverride ≠ some MIModes.gdb ∧ strContains p "lldb" = true then
    if checkDebugger w p then
      outcomeOf (createLLDBDebugConfiguration w p t) (pre ++ [p])
    else stepFallback w compilerPath t debuggerName (pre ++ [p])
  else stepFallback w compilerPath t debuggerName pre

/-- Step 2 of the resolver: `gdb` substituted into the compiler path. -/
def step2 (w : World) (compilerPath : String) (t : ExecutableTarget)
    (debuggerName : MIModes) (modeOverride : Option MIModes) (pre : List String) :
    Outcome :=
  let p := replaceClang "gdb" compilerPath
  if modeOverride ≠ some MIModes.lldb ∧ strContains p "gdb" = true then
    if checkDebugger w p then
      outcomeOf (createGDBDebugConfiguration w p t) (pre ++ [p])
    else step3 w compilerPath t debuggerName modeOverride (pre ++ [p])
  else step3 w compilerPath t debuggerName modeOverride pre

/-- Step 1 of the resolver: `lldb-mi` substituted into the compiler path,
then the cpptools-installed lldb-mi. -/
def step1 (w : World) (compilerPath : String) (t : ExecutableTarget)
    (debuggerName : MIModes) (modeOverride : Option MIModes) : Outcome :=
  let p := replaceClang "lldb-mi" compilerPath
  if modeOverride ≠ some MIModes.gdb ∧ strContains p "lldb-mi" = true then
    if checkDebugger w p then
      outcomeOf (createLLDBDebugConfiguration w p t) [p]
    else
      match cpptoolsDebuggerPath w with
      | some c2 =>
        if checkDebugger w c2 then
          outcomeOf (createLLDBDebugConfiguration w c2 t) [p, c2]
        else step2 w compilerPath t debuggerName modeOverride [p, c2]
      | none => step2 w compilerPath t debuggerName modeOverride [p]
  else step2 w compilerPath t debuggerName modeOverride []

/-- The resolver from the point where the compiler path is known: the
`cl.exe` check, then the candidate chain. -/
def resolveWithCompiler (w : World) (compilerPath : String) (t : ExecutableTarget)
    (debuggerName : MIModes) (modeOverride : Option MIModes) : Outcome :=
  if strEndsWith compilerPath "cl.exe" then
    { result := Except.ok (some (createMSVCDebugConfiguration t)),
      probed := [], warnings := [] }
  else step1 w compilerPath t debuggerName modeOverride

/-- The `CMAKE_LINKER` classification: MSVC iff the entry is present and
its value ends in `link.exe` or `ld.lld.exe`. -/
def isMSVCLinker (cache : String → Option String) : Bool :=
  match cache "CMAKE_LINKER" with
  | some linker => strEndsWith linker "link.exe" || strEndsWith linker "ld.lld.exe"
  | none => false

/-- Model of `getDebugConfigurationFromCache` of the source, with explicit effect
accounting.  The cache is modelled as the value lookup `get`. -/
def getDebugConfigurationFromCache (w : World) (cache : String → Option String)
    (t : ExecutableTarget) (platform : String)
    (modeOverride : Option MIModes) (debuggerPathOverride : Option String) : Outcome :=
  if isMSVCLinker cache then
    { result := Except.ok (some (createMSVCDebugConfiguration t)),
      probed := [], warnings := [] }
  else
    let debuggerName :=
      modeOverride.getD (if platform = "darwin" then MIModes.lldb else MIModes.gdb)
    let rest :=
      match searchForCompilerPathInCache cache with
      | none =>
        { result := Except.error "no.compiler.found.in.cache",
          probed := [], warnings := [] }
      | some compilerPath => resolveWithCompiler w compilerPath t debuggerName modeOverride
    match debuggerPathOverride with
    | some p =>
      if p = "" then rest
      else if isAbsolutePath p = true ∧ w.fsExists p = true then
        outcomeOf (createConfigFor w debuggerName p t) []
      else
        { result := rest.result, probed := rest.probed,
          warnings := "invalid.miDebuggerPath.override" :: rest.warnings }
    | none => rest

/-- The GDB-derived candidate paths of one resolution: the clang-pattern
substitution by `gdb`, the generic fallback path for the gdb family, and
the bare command `gdb`. -/
def gdbCandidatePaths (w : World) (cache : String → Option String) : List String :=
  match searchForCompilerPathInCache cache with
  | none => []
  | some cp => [replaceClang "gdb" cp, genericFallbackPath w cp MIModes.gdb, "gdb"]

/-- The LLDB-derived candidate paths of one resolution: the clang-pattern
substitutions by `lldb-mi` and `lldb`, the cpptools lldb-mi location, and
the generic fallback path for the lldb family. -/
def lldbCandidatePaths (w : World) (cache : String → Option String) : List String :=
  match searchForCompilerPathInCache cache with
  | none => []
  | some cp =>
    [replaceClang "lldb-mi" cp] ++ (cpptoolsDebuggerPath w).toList
      ++ [replaceClang "lldb" cp, genericFallbackPath w cp MIModes.lldb]

/-- Success test on a builder result. -/
def isOkE (e : Except String VSCodeDebugConfiguration) : Bool :=
  match e with
  | Except.ok _ => true
  | Except.error _ => false

/-- An outcome that only ever probed paths from `allowed` and never
returned a configuration of the family `m`. -/
def AvoidsFamily (o : Outcome) (allowed : List String) (m : MIModes) : Prop :=
  o.probed ⊆ allowed ∧
    ∀ c, o.result = Except.ok (some c) → c.MIMode ≠ some m

/-! Concrete fixtures used by witnesses and counterexamples. -/

/-- A sample executable target. -/
def t0 : ExecutableTarget := { name := "app", path := "/proj/build/app" }

/-- A cache whose only entry is a clang++ C++ compiler. -/
def c2cache : String → Option String :=
  fun k => if k = "CMAKE_CXX_COMPILER" then some "/usr/bin/clang++" else none

/-- A cache with no entries at all. -/
def emptyCache : String → Option String := fun _ => none

/-- A cache whose linker entry is an MSVC-style `link.exe`. -/
def linkerCache : String → Option String :=
  fun k => if k = "CMAKE_LINKER" then some "/tools/link.exe" else none

/-- A cache holding both a C++ and a C compiler entry. -/
def bothCache : String → Option String :=
  fun k =>
    if k = "CMAKE_CXX_COMPILER" then some "/usr/bin/g++"
    else if k = "CMAKE_C_COMPILER" then some "/usr/bin/gcc"
    else none

/-- A cache whose only entry is a plain `cc` C++ compiler value. -/
def ccCache : String → Option String :=
  fun k => if k = "CMAKE_CXX_COMPILER" then some "/usr/bin/cc" else none

/-- A world where every probe succeeds and every file exists. -/
def worldAllProbes : World :=
  { probe := fun _ => true, fsExists := fun _ => true,
    cpptoolsExtPath := none, win32 := false }

/-- A world where every probe fails and no file exists. -/
def worldNoProbes : World :=
  { probe := fun _ => false, fsExists := fun _ => false,
    cpptoolsExtPath := none, win32 := false }

/-- A world where exactly the lldb-named binaries respond to a probe. -/
def worldLldbOnly : World :=
  { probe := fun p => strContains p "lldb", fsExists := fun _ => false,
    cpptoolsExtPath := none, win32 := false }

/-- A world where only the bare command `lldb` responds to a probe. -/
def worldBareLldb : World :=
  { probe := fun p => p == "lldb", fsExists := fun _ => false,
    cpptoolsExtPath := none, win32 := false }

/-- A world where only the bare command `gdb` responds to a probe, while
every path exists on disk. -/
def worldBareGdb : World :=
  { probe := fun p => p == "gdb", fsExists := fun _ => true,
    cpptoolsExtPath := none, win32 := false }

/-- A world where only the bare command `gdb` responds to a probe and no
path exists on disk. -/
def worldBareGdbNoFs : World :=
  { probe := fun p => p == "gdb", fsExists := fun _ => false,
    cpptoolsExtPath := none, win32 := false }

/-! Claim theorems. -/

/-- C1: for every cache whose `CMAKE_LINKER` entry is present and whose
value ends in `link.exe` or `ld.lld.exe`, the resolver returns the MSVC
launch configuration for the target, for every mode override and every
debugger path override, probing nothing and emitting no warning: the
linker check short-circuits the override handling, the compiler lookup
and all candidate generation. -/
theorem c1_msvc_linker_short_circuit (w : World) (cache : String → Option String)
    (t : ExecutableTarget) (platform : String) (modeOverride : Option MIModes)
    (debuggerPathOverride : Option String) (linker : String)
    (hl : cache "CMAKE_LINKER" = some linker)
    (hm : (strEndsWith linker "link.exe" || strEndsWith linker "ld.lld.exe") = true) :
    getDebugConfigurationFromCache w cache t platform modeOverride debuggerPathOverride =
      { result := Except.ok (some
          { type := "cppvsdbg", name := "Debug " ++ t.name, request := "launch",
            cwd := dirname t.path, args := [], program := t.path,
            MIMode := none, miDebuggerPath := none, setupCommands := none }),
        probed := [], warnings := [] } := by
  unfold getDebugConfigurationFromCache isMSVCLinker createMSVCDebugConfiguration
  rw [hl]
  simp [hm]

/-- Witness for C1 at a concrete cache, linker value and target. -/
theorem c1_msvc_linker_short_circuit_witness :
    linkerCache "CMAKE_LINKER" = some "/tools/link.exe" ∧
    (strEndsWith "/tools/link.exe" "link.exe" || strEndsWith "/tools/link.exe" "ld.lld.exe") = true ∧
    getDebugConfigurationFromCache worldNoProbes linkerCache t0 "linux" none none =
      { result := Except.ok (some
          { type := "cppvsdbg", name := "Debug " ++ t0.name, request := "launch",
            cwd := dirname t0.path, args := [], program := t0.path,
            MIMode := none, miDebuggerPath := none, setupCommands := none }),
        probed := [], warnings := [] } :=
  ⟨rfl, by decide,
    c1_msvc_linker_short_circuit worldNoProbes linkerCache t0 "linux" none none
      "/tools/link.exe" rfl (by decide)⟩

/-- C4 counterexample: configuration building can fail.  In a world
where no probe succeeds, the GDB builder probes its argument and the
bare command `gdb` and raises an error instead of returning a
configuration, refuting both the no-probe and the no-error parts of the
claim. -/
theorem c4_counterexample :
    (createGDBDebugConfiguration worldNoProbes "/x/gdb" t0).1 =
      Except.error "gdb.not.found" ∧
    (createGDBDebugConfiguration worldNoProbes "/x/gdb" t0).2 = ["/x/gdb", "gdb"] :=
  ⟨rfl, rfl⟩

/-- C4 amended: only MSVC configuration building is pure data assembly.
The GDB builder succeeds exactly when its argument or the bare command
`gdb` probes successfully, and always probes at least one path; the LLDB
builder succeeds exactly when its argument probes successfully and
probes exactly that path. -/
theorem c4_amended_builders (w : World) (p : String) (t : ExecutableTarget) :
    isOkE (createGDBDebugConfiguration w p t).1 = (w.probe p || w.probe "gdb") ∧
    isOkE (createLLDBDebugConfiguration w p t).1 = w.probe p ∧
    (createGDBDebugConfiguration w p t).2 ≠ [] ∧
    (createLLDBDebugConfiguration w p t).2 = [p] ∧
    createMSVCDebugConfiguration t =
      { type := "cppvsdbg", name := "Debug " ++ t.name, request := "launch",
        cwd := dirname t.path, args := [], program := t.path,
        MIMode := none, miDebuggerPath := none, setupCommands := none } := by
  cases hp : w.probe p <;> cases hg : w.probe "gdb" <;>
    simp [createGDBDebugConfiguration, createLLDBDebugConfiguration, checkDebugger,
      isOkE, createMSVCDebugConfiguration, hp, hg]

/-- Witness for the amended C4 at a concrete world, path and target. -/
theorem c4_amended_builders_witness :
    isOkE (createGDBDebugConfiguration worldNoProbes "/x/gdb" t0).1 =
      (worldNoProbes.probe "/x/gdb" || worldNoProbes.probe "gdb") ∧
    isOkE (createLLDBDebugConfiguration worldNoProbes "/x/gdb" t0).1 =
      worldNoProbes.probe "/x/gdb" ∧
    (createGDBDebugConfiguration worldNoProbes "/x/gdb" t0).2 ≠ [] ∧
    (createLLDBDebugConfiguration worldNoProbes "/x/gdb" t0).2 = ["/x/gdb"] ∧
    createMSVCDebugConfiguration t0 =
      { type := "cppvsdbg", name := "Debug " ++ t0.name, request := "launch",
        cwd := dirname t0.path, args := [], program := t0.path,
        MIMode := none, miDebuggerPath := none, setupCommands := none } :=
  c4_amended_builders worldNoProbes "/x/gdb" t0

/-- C5 counterexample: the GDB configuration does not share the MSVC
`type` field.  At a concrete target and a succeeding probe the GDB
builder returns a configuration whose `type` is `cppdbg`, not
`cppvsdbg`. -/
theorem c5_counterexample :
    (createGDBDebugConfiguration worldAllProbes "/usr/bin/gdb" t0).1 =
      Except.ok (gdbLaunchConfig "/usr/bin/gdb" t0) ∧
    (gdbLaunchConfig "/usr/bin/gdb" t0).type = "cppdbg" ∧
    ("cppdbg" : String) ≠ "cppvsdbg" :=
  ⟨rfl, rfl, by decide⟩

/-- C5 amended: the MSVC configuration is exactly the claimed record;
the GDB and LLDB configurations share that record's `name`, `request`,
`cwd`, `args` and `program` fields but use type `cppdbg`, and add the
family fields: GDB adds `MIMode := gdb`, the debugger path and the
pretty-printing setup command; LLDB adds `MIMode := lldb` and the
debugger path with no setup commands.  Fields are never mixed across
families. -/
theorem c5_amended_shapes (w : World) (p : String) (t : ExecutableTarget)
    (hp : w.probe p = true) :
    (createGDBDebugConfiguration w p t).1 = Except.ok
      { type := "cppdbg", name := "Debug " ++ t.name, request := "launch",
        cwd := dirname t.path, args := [], program := t.path,
        MIMode := some MIModes.gdb, miDebuggerPath := some p,
        setupCommands := some
          [{ text := some "-enable-pretty-printing",
             description := some "enable.pretty.printing",
             ignoreFailures := some true }] } ∧
    (createLLDBDebugConfiguration w p t).1 = Except.ok
      { type := "cppdbg", name := "Debug " ++ t.name, request := "launch",
        cwd := dirname t.path, args := [], program := t.path,
        MIMode := some MIModes.lldb, miDebuggerPath := some p,
        setupCommands := none } ∧
    createMSVCDebugConfiguration t =
      { type := "cppvsdbg", name := "Debug " ++ t.name, request := "launch",
        cwd := dirname t.path, args := [], program := t.path,
        MIMode := none, miDebuggerPath := none, setupCommands := none } := by
  simp [createGDBDebugConfiguration, createLLDBDebugConfiguration, checkDebugger,
    createMSVCDebugConfiguration, gdbLaunchConfig, lldbLaunchConfig,
    gdbSetupCommands, hp]

/-- Witness for the amended C5 at a concrete world, path and target. -/
theorem c5_amended_shapes_witness :
    worldAllProbes.probe "/usr/bin/gdb" = true ∧
    (createGDBDebugConfiguration worldAllProbes "/usr/bin/gdb" t0).1 = Except.ok
      { type := "cppdbg", name := "Debug " ++ t0.name, request := "launch",
        cwd := dirname t0.path, args := [], program := t0.path,
        MIMode := some MIModes.gdb, miDebuggerPath := some "/usr/bin/gdb",
        setupCommands := some
          [{ text := some "-enable-pretty-printing",
             description := some "enable.pretty.printing",
             ignoreFailures := some true }] } ∧
    (createLLDBDebugConfiguration worldAllProbes "/usr/bin/gdb" t0).1 = Except.ok
      { type := "cppdbg", name := "Debug " ++ t0.name, request := "launch",
        cwd := dirname t0.path, args := [], program := t0.path,
        MIMode := some MIModes.lldb, miDebuggerPath := some "/usr/bin/gdb",
        setupCommands := none } ∧
    createMSVCDebugConfiguration t0 =
      { type := "cppvsdbg", name := "Debug " ++ t0.name, request := "launch",
        cwd := dirname t0.path, args := [], program := t0.path,
        MIMode := none, miDebuggerPath := none, setupCommands := none } :=
  ⟨rfl, c5_amended_shapes worldAllProbes "/usr/bin/gdb" t0 rfl⟩

/-- C6 counterexample: for the preferred family lldb there is no
bare-command fallback.  With compiler `/usr/bin/clang++`, mode override
`lldb`, and a world where only the bare command `lldb` responds to a
probe, resolution raises the fatal error without ever probing `lldb`. -/
theorem c6_counterexample :
    (getDebugConfigurationFromCache worldBareLldb c2cache t0 "linux"
        (some MIModes.lldb) none).result = Except.error "gdb.not.found" ∧
    worldBareLldb.probe "lldb" = true ∧
    "lldb" ∉ (getDebugConfigurationFromCache worldBareLldb c2cache t0 "linux"
        (some MIModes.lldb) none).probed := by
  refine ⟨rfl, rfl, ?_⟩
  decide

/-- C6 amended: the bare-command fallback exists only for the GDB
family.  The GDB builder probes bare `gdb` exactly when its argument
fails and raises exactly when both fail; the LLDB builder probes only
its argument and raises as soon as that probe fails. -/
theorem c6_amended_bare_fallback (w : World) (p : String) (t : ExecutableTarget) :
    ((createGDBDebugConfiguration w p t).1 = Except.error "gdb.not.found" ↔
      (w.probe p = false ∧ w.probe "gdb" = false)) ∧
    (createGDBDebugConfiguration w p t).2 =
      (if w.probe p then [p] else [p, "gdb"]) ∧
    ((createLLDBDebugConfiguration w p t).1 = Except.error "gdb.not.found" ↔
      w.probe p = false) ∧
    (createLLDBDebugConfiguration w p t).2 = [p] := by
  cases hp : w.probe p <;> cases hg : w.probe "gdb" <;>
    simp [createGDBDebugConfiguration, createLLDBDebugConfiguration, checkDebugger,
      hp, hg]

/-- Witness for the amended C6 at a concrete world, path and target. -/
theorem c6_amended_bare_fallback_witness :
    ((createGDBDebugConfiguration worldBareGdbNoFs "/x/gdb" t0).1 =
        Except.error "gdb.not.found" ↔
      (worldBareGdbNoFs.probe "/x/gdb" = false ∧
        worldBareGdbNoFs.probe "gdb" = false)) ∧
    (createGDBDebugConfiguration worldBareGdbNoFs "/x/gdb" t0).2 =
      (if worldBareGdbNoFs.probe "/x/gdb" then ["/x/gdb"] else ["/x/gdb", "gdb"]) ∧
    ((createLLDBDebugConfiguration worldBareGdbNoFs "/x/gdb" t0).1 =
        Except.error "gdb.not.found" ↔ worldBareGdbNoFs.probe "/x/gdb" = false) ∧
    (createLLDBDebugConfiguration worldBareGdbNoFs "/x/gdb" t0).2 = ["/x/gdb"] :=
  c6_amended_bare_fallback worldBareGdbNoFs "/x/gdb" t0

/-- C7: for every cache containing none of the three compiler entries,
with no MSVC linker entry and no valid debugger path override, the
resolver raises the fatal `no.compiler.found.in.cache` error rather than
returning null. -/
theorem c7_no_compiler_fatal (w : World) (cache : String → Option String)
    (t : ExecutableTarget) (platform : String) (modeOverride : Option MIModes)
    (debuggerPathOverride : Option String)
    (h1 : cache "CMAKE_CXX_COMPILER" = none)
    (h2 : cache "CMAKE_C_COMPILER" = none)
    (h3 : cache "CMAKE_CUDA_COMPILER" = none)
    (hl : isMSVCLinker cache = false)
    (hd : ∀ p, debuggerPathOverride = some p →
      p = "" ∨ ¬(isAbsolutePath p = true ∧ w.fsExists p = true)) :
    (getDebugConfigurationFromCache w cache t platform modeOverride
        debuggerPathOverride).result = Except.error "no.compiler.found.in.cache" := by
  have hs : searchForCompilerPathInCache cache = none := by
    unfold searchForCompilerPathInCache
    simp only [searchCompilerAux]
    rw [show ("CMAKE_" ++ "CXX" ++ "_COMPILER" : String) = "CMAKE_CXX_COMPILER" from rfl,
      show ("CMAKE_" ++ "C" ++ "_COMPILER" : String) = "CMAKE_C_COMPILER" from rfl,
      show ("CMAKE_" ++ "CUDA" ++ "_COMPILER" : String) = "CMAKE_CUDA_COMPILER" from rfl,
      h1, h2, h3]
  unfold getDebugConfigurationFromCache
  rw [hl, hs]
  cases debuggerPathOverride with
  | none => simp
  | some p =>
    rcases hd p rfl with he | hv
    · simp [he]
    · by_cases hemp : p = ""
      · simp [hemp]
      · simp [hemp, hv]

/-- Witness for C7 at the empty cache and a trivial world. -/
theorem c7_no_compiler_fatal_witness :
    emptyCache "CMAKE_CXX_COMPILER" = none ∧
    emptyCache "CMAKE_C_COMPILER" = none ∧
    emptyCache "CMAKE_CUDA_COMPILER" = none ∧
    isMSVCLinker emptyCache = false ∧
    (getDebugConfigurationFromCache worldNoProbes emptyCache t0 "linux" none
        none).result = Except.error "no.compiler.found.in.cache" :=
  ⟨rfl, rfl, rfl, rfl,
    c7_no_compiler_fatal worldNoProbes emptyCache t0 "linux" none none rfl rfl rfl rfl
      (fun p h => nomatch h)⟩

/-- C2: candidate precedence.  With compiler path `/usr/bin/clang++`, no
mode override and no path override, whenever both the derived
`/usr/bin/lldb-mi` and `/usr/bin/gdb` probe successfully (on any
platform), the resolver returns the lldb-mi candidate: an LLDB
configuration whose `miDebuggerPath` is `/usr/bin/lldb-mi`, never the
gdb candidate. -/
theorem c2_lldbmi_precedence (w : World) (t : ExecutableTarget) (platform : String)
    (h1 : w.probe "/usr/bin/lldb-mi" = true)
    (h2 : w.probe "/usr/bin/gdb" = true) :
    getDebugConfigurationFromCache w c2cache t platform none none =
      { result := Except.ok (some
          { type := "cppdbg", name := "Debug " ++ t.name, request := "launch",
            cwd := dirname t.path, args := [], program := t.path,
            MIMode := some MIModes.lldb, miDebuggerPath := some "/usr/bin/lldb-mi",
            setupCommands := none }),
        probed := ["/usr/bin/lldb-mi", "/usr/bin/lldb-mi"], warnings := [] } := by
  have e0 : isMSVCLinker c2cache = false := by decide
  have e1 : searchForCompilerPathInCache c2cache = some "/usr/bin/clang++" := by decide
  have e2 : replaceClang "lldb-mi" "/usr/bin/clang++" = "/usr/bin/lldb-mi" := by decide
  have e3 : strContains "/usr/bin/lldb-mi" "lldb-mi" = true := by decide
  have e4 : strEndsWith "/usr/bin/clang++" "cl.exe" = false := by decide
  unfold getDebugConfigurationFromCache
  rw [e0, e1]
  simp only [Bool.false_eq_true, if_false]
  unfold resolveWithCompiler
  rw [e4]
  simp only [Bool.false_eq_true, if_false]
  unfold step1
  rw [e2]
  simp only [e3, checkDebugger, h1, ne_eq, and_true, if_true]
  simp [createLLDBDebugConfiguration, checkDebugger, h1, outcomeOf,
    lldbLaunchConfig, Except.map]

/-- Witness for C2 at a concrete world, target and platform. -/
theorem c2_lldbmi_precedence_witness :
    worldAllProbes.probe "/usr/bin/lldb-mi" = true ∧
    worldAllProbes.probe "/usr/bin/gdb" = true ∧
    getDebugConfigurationFromCache worldAllProbes c2cache t0 "linux" none none =
      { result := Except.ok (some
          { type := "cppdbg", name := "Debug " ++ t0.name, request := "launch",
            cwd := dirname t0.path, args := [], program := t0.path,
            MIMode := some MIModes.lldb, miDebuggerPath := some "/usr/bin/lldb-mi",
            setupCommands := none }),
        probed := ["/usr/bin/lldb-mi", "/usr/bin/lldb-mi"], warnings := [] } :=
  ⟨rfl, rfl, c2_lldbmi_precedence worldAllProbes t0 "linux" rfl rfl⟩

/-- C9: compiler lookup probes `CMAKE_CXX_COMPILER`, `CMAKE_C_COMPILER`,
`CMAKE_CUDA_COMPILER` in that fixed order and returns the value of the
first present entry; in particular a cache holding both the C++ and the
C entry resolves to the C++ value. -/
theorem c9_compiler_lookup_order (cache : String → Option String) :
    searchForCompilerPathInCache cache =
      Option.orElse (cache "CMAKE_CXX_COMPILER")
        (fun _ => Option.orElse (cache "CMAKE_C_COMPILER")
          (fun _ => cache "CMAKE_CUDA_COMPILER")) := by
  unfold searchForCompilerPathInCache
  simp only [searchCompilerAux]
  rw [show ("CMAKE_" ++ "CXX" ++ "_COMPILER" : String) = "CMAKE_CXX_COMPILER" from rfl,
    show ("CMAKE_" ++ "C" ++ "_COMPILER" : String) = "CMAKE_C_COMPILER" from rfl,
    show ("CMAKE_" ++ "CUDA" ++ "_COMPILER" : String) = "CMAKE_CUDA_COMPILER" from rfl]
  cases cache "CMAKE_CXX_COMPILER" <;> cases cache "CMAKE_C_COMPILER" <;>
    cases cache "CMAKE_CUDA_COMPILER" <;> simp [Option.orElse]

/-- Witness for C9 at the cache holding both a C++ and a C entry; the
lookup returns the C++ value. -/
theorem c9_compiler_lookup_order_witness :
    (searchForCompilerPathInCache bothCache =
      Option.orElse (bothCache "CMAKE_CXX_COMPILER")
        (fun _ => Option.orElse (bothCache "CMAKE_C_COMPILER")
          (fun _ => bothCache "CMAKE_CUDA_COMPILER"))) ∧
    searchForCompilerPathInCache bothCache = some "/usr/bin/g++" :=
  ⟨c9_compiler_lookup_order bothCache, rfl⟩

/-- C10: when the clang-derived candidates fail or are skipped and the
generic fallback path mentions the preferred gdb family's debugger name,
the resolver hands that path to the configuration builder without a
prior probe; consequently, if the fallback path fails its probe while
the bare command `gdb` succeeds, the result is a GDB configuration whose
`miDebuggerPath` is the literal string `gdb`. -/
theorem c10_fallback_unprobed_handoff (w : World) (cache : String → Option String)
    (t : ExecutableTarget) (platform : String) (cp : String)
    (hl : isMSVCLinker cache = false)
    (hc : searchForCompilerPathInCache cache = some cp)
    (hcl : strEndsWith cp "cl.exe" = false)
    (h2 : strContains (replaceClang "gdb" cp) "gdb" = true →
      w.probe (replaceClang "gdb" cp) = false)
    (hfb : strContains (genericFallbackPath w cp MIModes.gdb) "gdb" = true)
    (hpf : w.probe (genericFallbackPath w cp MIModes.gdb) = false)
    (hbare : w.probe "gdb" = true) :
    (getDebugConfigurationFromCache w cache t platform (some MIModes.gdb)
        none).result = Except.ok (some (gdbLaunchConfig "gdb" t)) := by
  unfold getDebugConfigurationFromCache
  rw [hl, hc]
  simp only [Bool.false_eq_true, if_false]
  unfold resolveWithCompiler
  rw [hcl]
  simp only [Bool.false_eq_true, if_false]
  unfold step1
  simp only [ne_eq, not_true_eq_false, false_and, if_false, Option.getD_some]
  unfold step2
  have hfallback : ∀ pre : List String,
      (stepFallback w cp t MIModes.gdb pre).result =
        Except.ok (some (gdbLaunchConfig "gdb" t)) := by
    intro pre
    unfold stepFallback
    simp only [miModeStr, hfb, if_true]
    simp [outcomeOf, createConfigFor, createGDBDebugConfiguration, checkDebugger,
      hpf, hbare, Except.map]
  by_cases hg : strContains (replaceClang "gdb" cp) "gdb" = true
  · simp only [ne_eq, reduceCtorEq, not_false_eq_true, true_and, hg, if_true]
    rw [checkDebugger, h2 hg]
    simp only [Bool.false_eq_true, if_false]
    unfold step3
    simp only [ne_eq, not_true_eq_false, false_and, if_false]
    exact hfallback _
  · simp only [ne_eq, reduceCtorEq, not_false_eq_true, true_and, hg, if_false]
    unfold step3
    simp only [ne_eq, not_true_eq_false, false_and, if_false]
    exact hfallback _

/-- Witness for C10: compiler `/usr/bin/cc`, a world where only the bare
command `gdb` probes successfully and nothing exists on disk. -/
theorem c10_fallback_unprobed_handoff_witness :
    isMSVCLinker ccCache = false ∧
    searchForCompilerPathInCache ccCache = some "/usr/bin/cc" ∧
    strEndsWith "/usr/bin/cc" "cl.exe" = false ∧
    strContains (genericFallbackPath worldBareGdbNoFs "/usr/bin/cc" MIModes.gdb)
      "gdb" = true ∧
    worldBareGdbNoFs.probe
      (genericFallbackPath worldBareGdbNoFs "/usr/bin/cc" MIModes.gdb) = false ∧
    worldBareGdbNoFs.probe "gdb" = true ∧
    (getDebugConfigurationFromCache worldBareGdbNoFs ccCache t0 "linux"
        (some MIModes.gdb) none).result = Except.ok (some (gdbLaunchConfig "gdb" t0)) :=
  ⟨rfl, by decide, by decide, by decide, by decide, rfl,
    c10_fallback_unprobed_handoff worldBareGdbNoFs ccCache t0 "linux" "/usr/bin/cc"
      rfl (by decide) (by decide) (by decide) (by decide) (by decide) rfl⟩

/-- Monotonicity of `AvoidsFamily` in the allowed probe list. -/
theorem avoidsFamily_mono {o : Outcome} {A B : List String} {m : MIModes}
    (h : AvoidsFamily o A m) (hAB : A ⊆ B) : AvoidsFamily o B m :=
  ⟨h.1.trans hAB, h.2⟩

/-- The GDB builder only probes its argument and the bare command `gdb`. -/
theorem createGDB_probed_mem (w : World) (p : String) (t : ExecutableTarget)
    (x : String) (hx : x ∈ (createGDBDebugConfiguration w p t).2) :
    x = p ∨ x = "gdb" := by
  unfold createGDBDebugConfiguration at hx
  by_cases hp : checkDebugger w p
  · rw [if_pos hp] at hx
    simp at hx
    exact Or.inl hx
  · rw [if_neg hp] at hx
    by_cases hg : checkDebugger w "gdb"
    · rw [if_pos hg] at hx
      simpa using hx
    · rw [if_neg hg] at hx
      simpa using hx

/-- The LLDB builder probes exactly its argument. -/
theorem createLLDB_probed_eq (w : World) (p : String) (t : ExecutableTarget) :
    (createLLDBDebugConfiguration w p t).2 = [p] := by
  unfold createLLDBDebugConfiguration
  split <;> rfl

/-- A successful GDB build carries MI mode `gdb`. -/
theorem createGDB_result_mi {w : World} {p : String} {t : ExecutableTarget}
    {c : VSCodeDebugConfiguration}
    (h : (createGDBDebugConfiguration w p t).1 = Except.ok c) :
    c.MIMode = some MIModes.gdb := by
  unfold createGDBDebugConfiguration at h
  by_cases hp : checkDebugger w p
  · rw [if_pos hp] at h
    simp at h
    rw [← h]
    rfl
  · rw [if_neg hp] at h
    by_cases hg : checkDebugger w "gdb"
    · rw [if_pos hg] at h
      simp at h
      rw [← h]
      rfl
    · rw [if_neg hg] at h
      simp at h

/-- A successful LLDB build carries MI mode `lldb`. -/
theorem createLLDB_result_mi {w : World} {p : String} {t : ExecutableTarget}
    {c : VSCodeDebugConfiguration}
    (h : (createLLDBDebugConfiguration w p t).1 = Except.ok c) :
    c.MIMode = some MIModes.lldb := by
  unfold createLLDBDebugConfiguration at h
  by_cases hp : checkDebugger w p
  · rw [if_pos hp] at h
    simp at h
    rw [← h]
    rfl
  · rw [if_neg hp] at h
    simp at h

/-- A successful outcome of a lifted builder comes from a successful build. -/
theorem outcomeOf_result_ok {r : Except String VSCodeDebugConfiguration × List String}
    {pre : List String} {c : VSCodeDebugConfiguration}
    (h : (outcomeOf r pre).result = Except.ok (some c)) :
    r.1 = Except.ok c := by
  unfold outcomeOf at h
  cases hr : r.1 with
  | ok a =>
    rw [hr] at h
    simp [Except.map] at h
    rw [h]
  | error e =>
    rw [hr] at h
    simp [Except.map] at h

/-- The fallback stage for the gdb family probes only the fallback path
and the bare command `gdb`, and only returns GDB configurations. -/
theorem stepFallback_gdb_avoids (w : World) (cp : String) (t : ExecutableTarget)
    (pre : List String) :
    AvoidsFamily (stepFallback w cp t MIModes.gdb pre)
      (pre ++ [genericFallbackPath w cp MIModes.gdb, "gdb"]) MIModes.lldb := by
  unfold stepFallback
  by_cases hc : strContains (genericFallbackPath w cp MIModes.gdb)
      (miModeStr MIModes.gdb) = true
  · rw [if_pos hc]
    constructor
    · intro x hx
      have hx2 : x ∈ pre ++
          (createGDBDebugConfiguration w (genericFallbackPath w cp MIModes.gdb) t).2 := hx
      rw [List.mem_append] at hx2
      rcases hx2 with hx2 | hx2
      · exact List.mem_append.mpr (Or.inl hx2)
      · rcases createGDB_probed_mem w _ t x hx2 with h | h <;> subst h <;> simp
    · intro c hres
      have hok : (createGDBDebugConfiguration w
          (genericFallbackPath w cp MIModes.gdb) t).1 = Except.ok c :=
        outcomeOf_result_ok hres
      rw [createGDB_result_mi hok]
      simp
  · rw [if_neg hc]
    constructor
    · intro x hx
      exact List.mem_append.mpr (Or.inl hx)
    · intro c hres
      simp at hres

/-- The fallback stage for the lldb family probes only the fallback path
and only returns LLDB configurations. -/
theorem stepFallback_lldb_avoids (w : World) (cp : String) (t : ExecutableTarget)
    (pre : List String) :
    AvoidsFamily (stepFallback w cp t MIModes.lldb pre)
      (pre ++ [genericFallbackPath w cp MIModes.lldb]) MIModes.gdb := by
  unfold stepFallback
  by_cases hc : strContains (genericFallbackPath w cp MIModes.lldb)
      (miModeStr MIModes.lldb) = true
  · rw [if_pos hc]
    constructor
    · intro x hx
      have hx2 : x ∈ pre ++
          (createLLDBDebugConfiguration w (genericFallbackPath w cp MIModes.lldb) t).2 := hx
      rw [createLLDB_probed_eq] at hx2
      exact hx2
    · intro c hres
      have hok : (createLLDBDebugConfiguration w
          (genericFallbackPath w cp MIModes.lldb) t).1 = Except.ok c :=
        outcomeOf_result_ok hres
      rw [createLLDB_result_mi hok]
      simp
  · rw [if_neg hc]
    constructor
    · intro x hx
      exact List.mem_append.mpr (Or.inl hx)
    · intro c hres
      simp at hres

/-- With mode override `gdb`, step 3 is skipped. -/
theorem step3_mode_gdb (w : World) (cp : String) (t : ExecutableTarget)
    (pre : List String) :
    step3 w cp t MIModes.gdb (some MIModes.gdb) pre =
      stepFallback w cp t MIModes.gdb pre := by
  unfold step3
  simp

/-- With mode override `lldb`, step 3 probes only the lldb-substituted
path and defers to the fallback stage. -/
theorem step3_lldb_avoids (w : World) (cp : String) (t : ExecutableTarget)
    (pre : List String) :
    AvoidsFamily (step3 w cp t MIModes.lldb (some MIModes.lldb) pre)
      (pre ++ [replaceClang "lldb" cp, genericFallbackPath w cp MIModes.lldb])
      MIModes.gdb := by
  unfold step3
  by_cases hc : strContains (replaceClang "lldb" cp) "lldb" = true
  · rw [if_pos (by simp [hc])]
    by_cases hp : checkDebugger w (replaceClang "lldb" cp)
    · rw [if_pos hp]
      constructor
      · intro x hx
        have hx2 : x ∈ (pre ++ [replaceClang "lldb" cp]) ++
            (createLLDBDebugConfiguration w (replaceClang "lldb" cp) t).2 := hx
        rw [createLLDB_probed_eq] at hx2
        simp at hx2 ⊢
        tauto
      · intro c hres
        have hok : (createLLDBDebugConfiguration w (replaceClang "lldb" cp) t).1 =
            Except.ok c := outcomeOf_result_ok hres
        rw [createLLDB_result_mi hok]
        simp
    · rw [if_neg hp]
      refine avoidsFamily_mono (stepFallback_lldb_avoids w cp t (pre ++ [replaceClang "lldb" cp])) ?_
      intro x hx
      simp at hx ⊢
      tauto
  · rw [if_neg (by simp [hc])]
    refine avoidsFamily_mono (stepFallback_lldb_avoids w cp t pre) ?_
    intro x hx
    simp at hx ⊢
    tauto

/-- With mode override `gdb`, step 2 probes only gdb-derived candidates
and only returns GDB configurations. -/
theorem step2_gdb_avoids (w : World) (cp : String) (t : ExecutableTarget)
    (pre : List String) :
    AvoidsFamily (step2 w cp t MIModes.gdb (some MIModes.gdb) pre)
      (pre ++ [replaceClang "gdb" cp, genericFallbackPath w cp MIModes.gdb, "gdb"])
      MIModes.lldb := by
  unfold step2
  by_cases hc : strContains (replaceClang "gdb" cp) "gdb" = true
  · rw [if_pos (by simp [hc])]
    by_cases hp : checkDebugger w (replaceClang "gdb" cp)
    · rw [if_pos hp]
      constructor
      · intro x hx
        have hx2 : x ∈ (pre ++ [replaceClang "gdb" cp]) ++
            (createGDBDebugConfiguration w (replaceClang "gdb" cp) t).2 := hx
        rw [List.mem_append] at hx2
        rcases hx2 with hx2 | hx2
        · simp at hx2 ⊢
          tauto
        · rcases createGDB_probed_mem w _ t x hx2 with h | h <;> subst h <;> simp
      · intro c hres
        have hok : (createGDBDebugConfiguration w (replaceClang "gdb" cp) t).1 =
            Except.ok c := outcomeOf_result_ok hres
        rw [createGDB_result_mi hok]
        simp
    · rw [if_neg hp, step3_mode_gdb]
      refine avoidsFamily_mono (stepFallback_gdb_avoids w cp t (pre ++ [replaceClang "gdb" cp])) ?_
      intro x hx
      simp at hx ⊢
      tauto
  · rw [if_neg (by simp [hc]), step3_mode_gdb]
    refine avoidsFamily_mono (stepFallback_gdb_avoids w cp t pre) ?_
    intro x hx
    simp at hx ⊢
    tauto

/-- With mode override `lldb`, step 2 is skipped. -/
theorem step2_mode_lldb (w : World) (cp : String) (t : ExecutableTarget)
    (pre : List String) :
    step2 w cp t MIModes.lldb (some MIModes.lldb) pre =
      step3 w cp t MIModes.lldb (some MIModes.lldb) pre := by
  unfold step2
  simp

/-- With mode override `gdb`, step 1 is skipped. -/
theorem step1_mode_gdb (w : World) (cp : String) (t : ExecutableTarget) :
    step1 w cp t MIModes.gdb (some MIModes.gdb) =
      step2 w cp t MIModes.gdb (some MIModes.gdb) [] := by
  unfold step1
  simp

/-- With mode override `lldb`, step 1 probes only lldb-derived candidates
and only returns LLDB configurations. -/
theorem step1_lldb_avoids (w : World) (cp : String) (t : ExecutableTarget) :
    AvoidsFamily (step1 w cp t MIModes.lldb (some MIModes.lldb))
      ([replaceClang "lldb-mi" cp] ++ (cpptoolsDebuggerPath w).toList
        ++ [replaceClang "lldb" cp, genericFallbackPath w cp MIModes.lldb])
      MIModes.gdb := by
  unfold step1
  by_cases hc : strContains (replaceClang "lldb-mi" cp) "lldb-mi" = true
  · rw [if_pos (by simp [hc])]
    by_cases hp : checkDebugger w (replaceClang "lldb-mi" cp)
    · rw [if_pos hp]
      constructor
      · intro x hx
        have hx2 : x ∈ [replaceClang "lldb-mi" cp] ++
            (createLLDBDebugConfiguration w (replaceClang "lldb-mi" cp) t).2 := hx
        rw [createLLDB_probed_eq] at hx2
        simp at hx2 ⊢
        tauto
      · intro c hres
        have hok : (createLLDBDebugConfiguration w (replaceClang "lldb-mi" cp) t).1 =
            Except.ok c := outcomeOf_result_ok hres
        rw [createLLDB_result_mi hok]
        simp
    · rw [if_neg hp]
      cases hcp : cpptoolsDebuggerPath w with
      | some c2 =>
        dsimp only
        by_cases hp2 : checkDebugger w c2
        · rw [if_pos hp2]
          constructor
          · intro x hx
            have hx2 : x ∈ [replaceClang "lldb-mi" cp, c2] ++
                (createLLDBDebugConfiguration w c2 t).2 := hx
            rw [createLLDB_probed_eq] at hx2
            simp [hcp] at hx2 ⊢
            tauto
          · intro c hres
            have hok : (createLLDBDebugConfiguration w c2 t).1 = Except.ok c :=
              outcomeOf_result_ok hres
            rw [createLLDB_result_mi hok]
            simp
        · rw [if_neg hp2, step2_mode_lldb]
          refine avoidsFamily_mono (step3_lldb_avoids w cp t [replaceClang "lldb-mi" cp, c2]) ?_
          intro x hx
          simp [hcp] at hx ⊢
          tauto
      | none =>
        dsimp only
        rw [step2_mode_lldb]
        refine avoidsFamily_mono (step3_lldb_avoids w cp t [replaceClang "lldb-mi" cp]) ?_
        intro x hx
        simp at hx ⊢
        tauto
  · rw [if_neg (by simp [hc]), step2_mode_lldb]
    refine avoidsFamily_mono (step3_lldb_avoids w cp t []) ?_
    intro x hx
    simp at hx ⊢
    tauto

/-- With mode override `gdb`, the resolver from a known compiler path
probes only gdb-derived candidates and never builds an LLDB
configuration. -/
theorem resolveWC_gdb_avoids (w : World) (cp : String) (t : ExecutableTarget) :
    AvoidsFamily (resolveWithCompiler w cp t MIModes.gdb (some MIModes.gdb))
      [replaceClang "gdb" cp, genericFallbackPath w cp MIModes.gdb, "gdb"]
      MIModes.lldb := by
  unfold resolveWithCompiler
  by_cases hcl : strEndsWith cp "cl.exe" = true
  · rw [if_pos hcl]
    constructor
    · intro x hx
      simp at hx
    · intro c hres
      simp at hres
      rw [← hres]
      simp [createMSVCDebugConfiguration]
  · rw [if_neg hcl, step1_mode_gdb]
    have h := step2_gdb_avoids w cp t []
    rw [List.nil_append] at h
    exact h

/-- With mode override `lldb`, the resolver from a known compiler path
probes only lldb-derived candidates and never builds a GDB
configuration. -/
theorem resolveWC_lldb_avoids (w : World) (cp : String) (t : ExecutableTarget) :
    AvoidsFamily (resolveWithCompiler w cp t MIModes.lldb (some MIModes.lldb))
      ([replaceClang "lldb-mi" cp] ++ (cpptoolsDebuggerPath w).toList
        ++ [replaceClang "lldb" cp, genericFallbackPath w cp MIModes.lldb])
      MIModes.gdb := by
  unfold resolveWithCompiler
  by_cases hcl : strEndsWith cp "cl.exe" = true
  · rw [if_pos hcl]
    constructor
    · intro x hx
      simp at hx
    · intro c hres
      simp at hres
      rw [← hres]
      simp [createMSVCDebugConfiguration]
  · rw [if_neg hcl]
    exact step1_lldb_avoids w cp t

/-- With no MSVC linker entry and no path override, the resolver reduces
to the compiler lookup followed by the candidate chain. -/
theorem getDebug_none_override (w : World) (cache : String → Option String)
    (t : ExecutableTarget) (platform : String) (mo : Option MIModes)
    (hm : isMSVCLinker cache = false) :
    getDebugConfigurationFromCache w cache t platform mo none =
      (match searchForCompilerPathInCache cache with
      | none =>
        { result := Except.error "no.compiler.found.in.cache",
          probed := [], warnings := [] }
      | some cp =>
        resolveWithCompiler w cp t
          (mo.getD (if platform = "darwin" then MIModes.lldb else MIModes.gdb)) mo) := by
  unfold getDebugConfigurationFromCache
  rw [hm]
  simp only [Bool.false_eq_true, if_false]

/-- C3 counterexample: with mode override `gdb`, compiler
`/usr/bin/clang++`, a working lldb everywhere and no gdb anywhere, the
result is the raised `gdb.not.found` error, not a null result with a
warning. -/
theorem c3_counterexample :
    (getDebugConfigurationFromCache worldLldbOnly c2cache t0 "linux"
        (some MIModes.gdb) none).result = Except.error "gdb.not.found" ∧
    worldLldbOnly.probe "/usr/bin/lldb" = true ∧
    worldLldbOnly.probe "/usr/bin/gdb" = false ∧
    worldLldbOnly.probe "gdb" = false ∧
    (getDebugConfigurationFromCache worldLldbOnly c2cache t0 "linux"
        (some MIModes.gdb) none).warnings = [] := by
  refine ⟨rfl, ?_, ?_, ?_, rfl⟩ <;> decide

/-- C3 amended: a mode override of `gdb` confines probing to the
gdb-derived candidates (the clang-substituted gdb path, the generic
fallback path and the bare command `gdb`) and excludes any returned
configuration with MI mode `lldb`; symmetrically an override of `lldb`
confines probing to the lldb-derived candidates and excludes MI mode
`gdb`.  However, when no gdb exists, the gdb-override result is not
always a null-with-warning: if a gdb-named fallback candidate is
generated, the builder's bare-`gdb` fallback raises a fatal error
instead (see the counterexample). -/
theorem c3_amended_override_confines (w : World) (cache : String → Option String)
    (t : ExecutableTarget) (platform : String) :
    AvoidsFamily (getDebugConfigurationFromCache w cache t platform
        (some MIModes.gdb) none) (gdbCandidatePaths w cache) MIModes.lldb ∧
    AvoidsFamily (getDebugConfigurationFromCache w cache t platform
        (some MIModes.lldb) none) (lldbCandidatePaths w cache) MIModes.gdb := by
  by_cases hm : isMSVCLinker cache = true
  · have hmsvc : ∀ mo cands, AvoidsFamily (getDebugConfigurationFromCache w cache t
        platform mo none) cands (match mo with
          | some MIModes.gdb => MIModes.lldb
          | _ => MIModes.gdb) := by
      intro mo cands
      unfold getDebugConfigurationFromCache
      rw [if_pos hm]
      constructor
      · intro x hx
        simp at hx
      · intro c hres
        simp at hres
        rw [← hres]
        cases mo with
        | none => simp [createMSVCDebugConfiguration]
        | some m => cases m <;> simp [createMSVCDebugConfiguration]
    exact ⟨hmsvc (some MIModes.gdb) _, hmsvc (some MIModes.lldb) _⟩
  · have hm' : isMSVCLinker cache = false := by
      revert hm
      cases isMSVCLinker cache <;> simp
    constructor
    · rw [getDebug_none_override w cache t platform (some MIModes.gdb) hm']
      unfold gdbCandidatePaths
      cases hsc : searchForCompilerPathInCache cache with
      | none =>
        constructor
        · intro x hx
          simp at hx
        · intro c hres
          simp at hres
      | some cp =>
        simp only [Option.getD_some]
        exact resolveWC_gdb_avoids w cp t
    · rw [getDebug_none_override w cache t platform (some MIModes.lldb) hm']
      unfold lldbCandidatePaths
      cases hsc : searchForCompilerPathInCache cache with
      | none =>
        constructor
        · intro x hx
          simp at hx
        · intro c hres
          simp at hres
      | some cp =>
        simp only [Option.getD_some]
        exact resolveWC_lldb_avoids w cp t

/-- Witness for the amended C3 at a concrete world, cache and target. -/
theorem c3_amended_override_confines_witness :
    AvoidsFamily (getDebugConfigurationFromCache worldLldbOnly c2cache t0 "linux"
        (some MIModes.gdb) none) (gdbCandidatePaths worldLldbOnly c2cache)
      MIModes.lldb ∧
    AvoidsFamily (getDebugConfigurationFromCache worldLldbOnly c2cache t0 "linux"
        (some MIModes.lldb) none) (lldbCandidatePaths worldLldbOnly c2cache)
      MIModes.gdb :=
  c3_amended_override_confines worldLldbOnly c2cache t0 "linux"

/-- C8 counterexample: a valid (absolute, existing) debugger path
override does not guarantee that the returned configuration's
`miDebuggerPath` is the override.  If the override path exists on disk
but fails its probe while bare `gdb` succeeds, the GDB builder
substitutes the literal `gdb`. -/
theorem c8_counterexample :
    (getDebugConfigurationFromCache worldBareGdb c2cache t0 "linux" none
        (some "/opt/mydbg")).result = Except.ok (some (gdbLaunchConfig "gdb" t0)) ∧
    isAbsolutePath "/opt/mydbg" = true ∧
    worldBareGdb.fsExists "/opt/mydbg" = true ∧
    (gdbLaunchConfig "gdb" t0).miDebuggerPath ≠ some "/opt/mydbg" := by
  refine ⟨rfl, rfl, rfl, ?_⟩
  decide

/-- C8 amended: a non-MSVC cache and a nonempty override behave as
follows.  If the override is absolute, exists on disk and passes the
probe, resolution terminally returns the preferred family's
configuration with the override as debugger path, probing only the
override.  If the override is not an absolute existing path, the
`invalid.miDebuggerPath.override` warning is emitted and resolution
continues exactly as if no override had been supplied.  (When a valid
override fails its probe, the preferred family's builder takes over: the
GDB builder substitutes bare `gdb` or raises, the LLDB builder raises —
see the counterexample.) -/
theorem c8_amended_override (w : World) (cache : String → Option String)
    (t : ExecutableTarget) (platform : String) (modeOverride : Option MIModes)
    (p : String) (hl : isMSVCLinker cache = false) (hp : p ≠ "") :
    (isAbsolutePath p = true → w.fsExists p = true → w.probe p = true →
      getDebugConfigurationFromCache w cache t platform modeOverride (some p) =
        { result := Except.ok (some (launchConfigFor
            (modeOverride.getD (if platform = "darwin" then MIModes.lldb else MIModes.gdb))
            p t)),
          probed := [p], warnings := [] }) ∧
    (¬(isAbsolutePath p = true ∧ w.fsExists p = true) →
      getDebugConfigurationFromCache w cache t platform modeOverride (some p) =
        { result := (getDebugConfigurationFromCache w cache t platform modeOverride
            none).result,
          probed := (getDebugConfigurationFromCache w cache t platform modeOverride
            none).probed,
          warnings := "invalid.miDebuggerPath.override" ::
            (getDebugConfigurationFromCache w cache t platform modeOverride
              none).warnings }) := by
  constructor
  · intro ha he hpr
    unfold getDebugConfigurationFromCache
    rw [hl]
    simp only [Bool.false_eq_true, if_false]
    rw [if_neg hp, if_pos ⟨ha, he⟩]
    cases hm : modeOverride.getD
        (if platform = "darwin" then MIModes.lldb else MIModes.gdb) with
    | gdb =>
      simp [createConfigFor, createGDBDebugConfiguration, checkDebugger, hpr,
        outcomeOf, Except.map, launchConfigFor]
    | lldb =>
      simp [createConfigFor, createLLDBDebugConfiguration, checkDebugger, hpr,
        outcomeOf, Except.map, launchConfigFor]
  · intro hv
    unfold getDebugConfigurationFromCache
    rw [hl]
    simp only [Bool.false_eq_true, if_false]
    rw [if_neg hp, if_neg hv]

/-- Witness for the amended C8: a valid, probe-succeeding absolute
override is returned as the debugger path of the preferred (gdb)
family's configuration. -/
theorem c8_amended_override_witness :
    isMSVCLinker emptyCache = false ∧
    ("/opt/mydbg" : String) ≠ "" ∧
    isAbsolutePath "/opt/mydbg" = true ∧
    worldAllProbes.fsExists "/opt/mydbg" = true ∧
    worldAllProbes.probe "/opt/mydbg" = true ∧
    getDebugConfigurationFromCache worldAllProbes emptyCache t0 "linux" none
        (some "/opt/mydbg") =
      { result := Except.ok (some (launchConfigFor
          ((none : Option MIModes).getD
            (if ("linux" : String) = "darwin" then MIModes.lldb else MIModes.gdb))
          "/opt/mydbg" t0)),
        probed := ["/opt/mydbg"], warnings := [] } :=
  ⟨rfl, by decide, rfl, rfl, rfl,
    (c8_amended_override worldAllProbes emptyCache t0 "linux" none "/opt/mydbg" rfl
      (by decide)).1 rfl rfl rfl⟩

end CMakeDbg
